import Mathlib

/-!
Verification development for the `rehearsed-multi-student` backend.

This file shallowly embeds the core of the repository:
the student Agent Unit (`StudentAgent.process_prompt`), the parallel
fan-out orchestrator (`ParallelStudentOrchestrator.process_prompt_parallel`),
the voice rendering adapter (`TextToSpeechService.synthesize_speech`),
the coaching evaluator (`FeedbackAgent.analyze_interaction`), the lesson-end
summarizer (`LessonSummaryAgent.generate_lesson_summary`) and the HTTP
endpoints of `api/main.py` that wire them together.

Upstream capabilities (the Gemini generation calls, the TTS client) are
modelled as explicit parameters: an `Except String _` value stands for the
outcome of one network call (`Except.error e` models the call raising an
exception whose string rendering is `e`).  Concurrency is modelled by
making the completion order of the fan-out an explicit parameter; the
claim theorems quantify over it.
-/

/-- A JSON value, as far as the parsed generation output is concerned.
Models the values that `json.loads` can put in the result dict for the
four schema fields used by `StudentAgent.process_prompt`. -/
inductive JVal where
  | null
  | bool (b : Bool)
  | num (q : ℚ)
  | str (s : String)
deriving DecidableEq, Repr

/-- Python `dict.get(key, default)`: an absent key (`none`) yields the
default; a present key yields its value even when that value is JSON
null. -/
def pyGet (v : Option JVal) (default : JVal) : JVal :=
  v.getD default

/-- The parsed generation output of one student agent: which of the four
schema keys are present in the JSON object, and with which values.
`none` = key absent (so `result.get` falls back to its default). -/
structure GenDict where
  would_raise_hand : Option JVal
  confidence_score : Option JVal
  thinking_process : Option JVal
  response : Option JVal
deriving DecidableEq, Repr

/-- The slice of `StudentProfile` (models/schemas.py) that the embedded
code paths read: identity and the learning-style tag. -/
structure StudentProfile where
  id : String
  name : String
  learning_style : String
deriving DecidableEq, Repr

/-- The slice of `LessonContext` (models/schemas.py) read by
`_get_learning_style_guidance`: grade level and topic. -/
structure LessonContext where
  grade_level : String
  topic : String
deriving DecidableEq, Repr

/-- `StudentResponse` (models/schemas.py).  `confidence_score` is a
rational standing for the Python float; the pydantic range constraint
`ge=0, le=1` is enforced by `validateStudentResponse` below, exactly
where pydantic enforces it (at construction from untrusted data). -/
structure StudentResponse where
  student_id : String
  student_name : String
  would_raise_hand : Bool
  confidence_score : ℚ
  thinking_process : String
  response : Option String
  audio_base64 : Option String
deriving DecidableEq, Repr

/-- Pydantic validation of a `StudentResponse` built from the four
generation-output fields (student_agent.py lines 220-227).  Mirrors the
field types of the pydantic model: `would_raise_hand` must be a bool,
`confidence_score` a number in `[0,1]` (`ge=0.0, le=1.0`), `thinking_process`
a string (JSON null is rejected: the field is `str`, not `Optional`),
`response` a string or null (`Optional[str]`).  On violation pydantic
raises a `ValidationError`, modelled as `Except.error` with a diagnostic
string. -/
def validateStudentResponse (sid sname : String) (wrh conf think resp : JVal) :
    Except String StudentResponse :=
  match wrh with
  | JVal.bool b =>
    match conf with
    | JVal.num q =>
      if 0 ≤ q ∧ q ≤ 1 then
        match think with
        | JVal.str t =>
          match resp with
          | JVal.null => Except.ok ⟨sid, sname, b, q, t, none, none⟩
          | JVal.str s => Except.ok ⟨sid, sname, b, q, t, some s, none⟩
          | _ => Except.error "validation error: response is not a string"
        | _ => Except.error "validation error: thinking_process is not a string"
      else Except.error "validation error: confidence_score out of range"
    | _ => Except.error "validation error: confidence_score is not a number"
  | _ => Except.error "validation error: would_raise_hand is not a bool"

/-- The fallback `StudentResponse` built in the `except` branch of
`StudentAgent.process_prompt` (student_agent.py lines 229-239). -/
def degradedResponse (profile : StudentProfile) (e : String) : StudentResponse :=
  ⟨profile.id, profile.name, false, 0, "Error occurred: " ++ e, none, none⟩

/-- `StudentAgent.process_prompt` (student_agent.py lines 189-239).
`gen` is the combined outcome of the Gemini call plus `json.loads`:
`Except.error e` models any exception raised inside the `try` block up to
parsing (network error, timeout, malformed JSON).  On a parsed dict the
code applies `result.get` with the literal defaults of lines 223-226 and
constructs a `StudentResponse`, whose pydantic validation failure is also
caught by the same `except Exception` and collapses to the degraded
fallback. -/
def process_prompt (profile : StudentProfile) (gen : Except String GenDict) :
    StudentResponse :=
  match gen with
  | Except.error e => degradedResponse profile e
  | Except.ok d =>
    match validateStudentResponse profile.id profile.name
        (pyGet d.would_raise_hand (JVal.bool false))
        (pyGet d.confidence_score (JVal.num 0))
        (pyGet d.thinking_process (JVal.str ""))
        (pyGet d.response JVal.null) with
    | Except.ok r => r
    | Except.error e => degradedResponse profile e

/-- Does `needle` occur as a contiguous run inside `hay`?  Character-list
form of Python's `word in topic_lower` substring test. -/
def charsHasSub (needle : List Char) : List Char → Bool
  | [] => needle.isEmpty
  | c :: t => needle.isPrefixOf (c :: t) || charsHasSub needle t

/-- Python's `word in s` substring containment on strings. -/
def strHasSub (hay needle : String) : Bool :=
  charsHasSub needle.data hay.data

/-- `StudentAgent._get_learning_style_guidance` (student_agent.py lines
38-97), the pure style-guidance function: branches on the profile's
learning-style tag, then on keyword containment in the lowercased topic
(or, for struggling learners, on grade-level membership), returning one
of seven literal guidance strings. -/
def get_learning_style_guidance (learning_style : String)
    (lesson_context : LessonContext) : String :=
  let topic_lower := lesson_context.topic.toLower
  if learning_style = "algorithmic" then
    if ["equation", "solving", "procedure", "algorithm", "formula"].any
        (fun word => strHasSub topic_lower word) then
      "This topic plays to YOUR STRENGTHS (procedures and formulas)!\n- You should be confident and eager to share step-by-step methods\n- Reference the specific procedure or algorithm you\x27d use\n- Break down your answer into clear, sequential steps\n- You might even mention which formula or rule applies"
    else
      "This topic is CHALLENGING for you (less procedural, more conceptual)!\n- You might struggle to see a clear algorithm or procedure\n- You may ask \"what\x27s the formula?\" or \"what are the steps?\"\n- You might give a technically correct but overly mechanical answer\n- You could miss the deeper conceptual understanding"
  else if learning_style = "visual" then
    if ["graph", "diagram", "visual", "geometry", "shape", "pattern", "fraction", "model"].any
        (fun word => strHasSub topic_lower word) then
      "This topic plays to YOUR STRENGTHS (visual/spatial)!\n- You should be excited to visualize or draw this\n- Describe what you can picture in your mind\n- Reference diagrams, graphs, or visual models\n- You might want to explain by drawing or showing something"
    else
      "This topic is CHALLENGING for you (abstract/symbolic)!\n- You might struggle without a visual representation\n- You could say \"I need to draw this out\" or \"can we see a diagram?\"\n- Your answer might focus on trying to make a mental picture\n- You may have difficulty with purely algebraic or symbolic aspects"
  else if learning_style = "struggling" then
    if ["1st grade", "2nd grade", "3rd grade", "4th grade"].contains
        lesson_context.grade_level then
      "As a struggling learner at this grade level:\n- You might have SOME familiarity with this from earlier lessons\n- But you probably have incomplete understanding or misconceptions\n- You might confuse this with something similar\n- You need concrete examples and may still get confused\n- Show realistic partial understanding, not complete confusion"
    else
      "As a struggling learner at this advanced level:\n- This topic is likely VERY CHALLENGING - possibly beyond your current understanding\n- You may have foundational gaps that make this hard to grasp\n- You might try to connect to simpler examples you remember\n- You could have misconceptions or mix up concepts\n- Show realistic struggle - partial ideas, uncertainty, or asking for clarification"
  else
    "Respond authentically based on your profile"

/-- The result-slot store of `asyncio.gather`: completing the task at
index `i` writes that task's (deterministic) result into slot `i`.  The
list `order` is the order in which the concurrent tasks happen to
complete; it is external scheduling, not part of the program. -/
def fillSlots (tasks : List α) : List ℕ → (ℕ → Option α) → (ℕ → Option α)
  | [], slots => slots
  | i :: rest, slots => fillSlots tasks rest (Function.update slots i tasks[i]?)

/-- `asyncio.gather(*tasks)` (student_agent.py line 270): all tasks run
concurrently, each completion stores its result in its own slot, and
after the all-or-nothing join the results are read back in slot (task
submission) order.  A slot still `none` would mean a task never
completed; under a completion order covering every index this cannot
happen (see `gather_eq_map_some`). -/
def gather (tasks : List α) (order : List ℕ) : List (Option α) :=
  (List.range tasks.length).map (fillSlots tasks order (fun _ => none))

/-- Completing tasks in any order fills each mentioned slot with that
slot's own task result. -/
theorem fillSlots_apply (tasks : List α) (order : List ℕ)
    (slots : ℕ → Option α) (j : ℕ) :
    fillSlots tasks order slots j =
      if j ∈ order then tasks[j]? else slots j := by
  induction order generalizing slots with
  | nil => simp [fillSlots]
  | cons i rest ih =>
    simp only [fillSlots, ih, List.mem_cons]
    by_cases hj : j ∈ rest
    · simp [hj]
    · by_cases hji : j = i
      · subst hji
        simp [hj, Function.update_same]
      · simp [hj, hji, Function.update_noteq hji]

/-- When every task index completes, the gathered output is exactly the
task list (each result in its submission slot), whatever the completion
order was. -/
theorem gather_eq_map_some (tasks : List α) (order : List ℕ)
    (hcover : ∀ j < tasks.length, j ∈ order) :
    gather tasks order = tasks.map some := by
  apply List.ext_getElem?
  intro j
  by_cases hj : j < tasks.length
  · simp [gather, fillSlots_apply, hcover j hj, hj, List.getElem?_eq_getElem]
  · simp [gather, List.getElem?_eq_none, le_of_not_lt hj]

/-- One per-agent generation environment: the outcome of agent `a`'s
Gemini call in this dispatch. -/
def GenEnv : Type := StudentProfile → Except String GenDict

/-- The text phase of
`ParallelStudentOrchestrator.process_prompt_parallel` (student_agent.py
lines 268-270): one `process_prompt` task per registered agent, in
registration order, joined by `asyncio.gather` under an arbitrary
completion order. -/
def process_prompt_parallel (agents : List StudentProfile) (env : GenEnv)
    (order : List ℕ) : List (Option StudentResponse) :=
  gather (agents.map (fun a => process_prompt a (env a))) order

/-- Python's `str.strip()`: remove leading and trailing whitespace.
(`String.trim` is not used because its byte-level implementation does
not reduce in the kernel.) -/
def pyStrip (s : String) : String :=
  ⟨((s.data.dropWhile Char.isWhitespace).reverse.dropWhile Char.isWhitespace).reverse⟩

/-- `TextToSpeechService.synthesize_speech` (tts_service.py lines 18-75)
with the TTS client call made explicit: returns the optional
base64 audio together with the number of times the TTS client was
invoked.  Empty or whitespace-only text short-circuits to `none` with
zero client calls; a client exception is caught and becomes `none`. -/
def synthesize_speech (client : String → Except String String)
    (text : String) : Option String × ℕ :=
  if text = "" ∨ pyStrip text = "" then (none, 0)
  else
    match client text with
    | Except.ok audio_base64 => (some audio_base64, 1)
    | Except.error _ => (none, 1)

/-- The audio task built for one response in the audio phase of
`process_prompt_parallel` (student_agent.py lines 274-285): a real
synthesis task when `response.response` is truthy (non-null and
non-empty), else `asyncio.sleep(0, result=None)`, which resolves to
`None` with zero TTS-client calls. -/
def audioTask (client : String → Except String String)
    (r : StudentResponse) : Option String × ℕ :=
  match r.response with
  | some s => if s = "" then (none, 0) else synthesize_speech client s
  | none => (none, 0)

/-- The audio phase of `process_prompt_parallel` (student_agent.py lines
272-291): runs one audio task per response and attaches each result to
the matching response, keeping for each response the number of
TTS-client invocations made on its behalf. -/
def attachAudio (client : String → Except String String)
    (responses : List StudentResponse) : List (StudentResponse × ℕ) :=
  responses.map (fun r =>
    ({ r with audio_base64 := (audioTask client r).1 }, (audioTask client r).2))

/-- `sum(1 for r in student_responses if r.would_raise_hand)`
(api/main.py line 241). -/
def numRaisingHands (responses : List StudentResponse) : ℕ :=
  (responses.filter (fun r => r.would_raise_hand)).length

/-- The summary string of api/main.py lines 242-245. -/
def mkSummary (num total : ℕ) : String :=
  s!"{num} out of {total} students would raise their hand to answer this question."

/-- `MultiStudentResponse` (models/schemas.py). -/
structure MultiStudentResponse where
  students : List StudentResponse
  summary : String
deriving DecidableEq, Repr

/-- The `/ask` endpoint body up to the JSON answer (api/main.py lines
232-256, `stream_feedback=False` path): dispatch to all agents, then
derive the raised-hands summary.  `Except.error` would model the
endpoint's `except` branch re-raising as HTTP 500; it is reachable only
if the all-or-nothing join left a slot unfilled, which a covering
completion order rules out. -/
def ask_students (agents : List StudentProfile) (env : GenEnv)
    (order : List ℕ) : Except String MultiStudentResponse :=
  match (process_prompt_parallel agents env order).allSome with
  | none => Except.error "orchestrator join failed"
  | some student_responses =>
    Except.ok ⟨student_responses,
      mkSummary (numRaisingHands student_responses) student_responses.length⟩

/-- `FeedbackInsight` (models/feedback.py, as constructed in
feedback_agent.py lines 202-216). -/
structure FeedbackInsight where
  category : String
  message : String
  severity : String
deriving DecidableEq, Repr

/-- `TeacherFeedback` in its insights shape (models/feedback.py, as
constructed in feedback_agent.py lines 203-218). -/
structure TeacherFeedback where
  insights : List FeedbackInsight
  overall_observation : Option String
deriving DecidableEq, Repr

/-- `TeacherFeedbackOutput` (models/outputs.py lines 64-68), the schema
the coaching generation call is validated against. -/
structure TeacherFeedbackOutput where
  insights : List FeedbackInsight
  overall_observation : Option String
deriving DecidableEq, Repr

/-- `FeedbackAgent.analyze_interaction` (feedback_agent.py lines
121-218) with the upstream call and the output validation made
explicit.  `gen` is the outcome of `self.client.aio.models.generate_content`
— note that in the source this call sits OUTSIDE the `try` block, so its
exception propagates out of the method.  `parse` is
`TeacherFeedbackOutput.model_validate_json` on the response text
(`none` = parse/validation failure), whose failure the `except` branch
converts into the in-progress fallback verdict of lines 209-218. -/
def analyze_interaction (gen : Except String String)
    (parse : String → Option TeacherFeedbackOutput) :
    Except String TeacherFeedback :=
  match gen with
  | Except.error e => Except.error e
  | Except.ok text =>
    match parse text with
    | some out => Except.ok ⟨out.insights, out.overall_observation⟩
    | none =>
      Except.ok ⟨[⟨"engagement", "Feedback analysis in progress...", "info"⟩],
        some (if text ≠ "" then text.take 200 else "Analysis pending")⟩

/-- One observable step of the `/ask` SSE generator: a `yield` hands the
event to the `StreamingResponse` consumer (the transport) and suspends
the generator there, so trace order is both program order and delivery
order. -/
inductive StreamStep where
  | yieldStudents
  | sleepStep
  | issueCoachingCall
  | yieldFeedback
  | yieldError
  | yieldDone
deriving DecidableEq, Repr

/-- The `event_stream` generator of the streamed `/ask` path
(api/main.py lines 260-291) as the trace of its observable steps: yield
the students_response event, sleep 0.1s, issue the coaching generation
call, then either yield teacher_feedback / done, or — when the coaching
call raised — yield the error event from the `except` branch. -/
def event_stream (coach : Except String TeacherFeedback) : List StreamStep :=
  [StreamStep.yieldStudents, StreamStep.sleepStep, StreamStep.issueCoachingCall] ++
    match coach with
    | Except.ok _ => [StreamStep.yieldFeedback, StreamStep.sleepStep, StreamStep.yieldDone]
    | Except.error _ => [StreamStep.yieldError]

/-- `LessonSummary`, `StrengthsAndGrowth`, `NextSteps`,
`EndLessonResponse` (models/schemas.py as used in
lesson_summary_agent.py lines 190-196). -/
structure LessonSummary where
  total_exchanges : ℕ
  students_called_on : List String
  participation_pattern : String
  key_moments : List String
deriving DecidableEq, Repr

structure StrengthsAndGrowth where
  strengths : List String
  areas_for_growth : List String
deriving DecidableEq, Repr

structure NextSteps where
  immediate_actions : List String
  practice_focus : String
  resources : Option (List String)
deriving DecidableEq, Repr

structure EndLessonResponse where
  lesson_summary : LessonSummary
  overall_feedback : String
  strengths_and_growth : StrengthsAndGrowth
  next_steps : NextSteps
  celebration : String
deriving DecidableEq, Repr

/-- `LessonSummaryAgent.generate_lesson_summary` (lesson_summary_agent.py
lines 126-199).  `gen` is the generation call (outside the `try`);
`parse` is `json.loads` plus the model constructions of lines 188-196,
returning the parse-failure message on violation.  Unlike the other
components, the `except` branch re-raises: it wraps the failure in a
`ValueError` embedding the diagnostic and the raw response text. -/
def generate_lesson_summary (gen : Except String String)
    (parse : String → Except String EndLessonResponse) :
    Except String EndLessonResponse :=
  match gen with
  | Except.error e => Except.error e
  | Except.ok text =>
    match parse text with
    | Except.ok r => Except.ok r
    | Except.error e =>
      Except.error ("Failed to parse lesson summary: " ++ e ++ "\nResponse: " ++ text)

/-- Outcome of an HTTP endpoint at the delivery boundary: a 200 payload,
a 422 request-validation rejection (raised by FastAPI/pydantic before
the endpoint body runs), or a 500 `HTTPException` from the endpoint's
`except` branch. -/
inductive HttpOutcome (α : Type) where
  | ok200 (payload : α)
  | clientError422
  | serverError500 (detail : String)
deriving DecidableEq, Repr

/-- The `/lesson/end` endpoint (api/main.py lines 539-606): returns the
summary on success and converts any exception from
`generate_lesson_summary` into `HTTPException(status_code=500)`. -/
def end_lesson (gen : Except String String)
    (parse : String → Except String EndLessonResponse) :
    HttpOutcome EndLessonResponse :=
  match generate_lesson_summary gen parse with
  | Except.ok summary => HttpOutcome.ok200 summary
  | Except.error e => HttpOutcome.serverError500 e

/-- `LessonSetupRequest` (models/lesson_analyzer/request.py):
`lesson_plan_text` is a required string, the PDF field optional. -/
structure LessonSetupRequest where
  lesson_plan_text : String
  lesson_plan_pdf_base64 : Option String
deriving DecidableEq, Repr

/-- `LessonContext` as returned by the lesson analyzer
(models/lesson_analyzer/context.py).  The per-student approach records
are kept as (student_id, approach text) pairs; no embedded code path
reads into them. -/
structure LessonContextFull where
  grade_level : String
  subject : String
  topic : String
  learning_objectives : List String
  key_concepts : List String
  context_summary : String
  mathematical_problem : Option String
  student_approaches : List (String × String)
deriving DecidableEq, Repr

/-- The fallback context built in the `except` branch of
`LessonAnalyzer.analyze_lesson_plan` (lesson_analyzer.py lines
119-130). -/
def fallbackLessonContext (e : String) : LessonContextFull :=
  ⟨"Unknown", "Mathematics", "General Discussion",
    ["Practice mathematical reasoning"], ["Problem solving"],
    "Lesson context could not be fully extracted: " ++ e, none, []⟩

/-- `LessonAnalyzer.analyze_lesson_plan` (lesson_analyzer.py lines
34-130) with the generation call made explicit.  Returns whether the
generation call was issued, paired with the outcome.  The content parts
are collected from the truthy input fields (lines 58-76); when both are
falsy the method raises a `ValueError` BEFORE the generation call (lines
78-81), and that exception propagates (it is raised outside the `try`).
The generation call itself is also outside the `try`, so its exception
propagates; only the parse of its output is guarded, falling back to
`fallbackLessonContext` (lines 98-130). -/
def analyze_lesson_plan (req : LessonSetupRequest)
    (gen : Except String String)
    (parse : String → Except String LessonContextFull) :
    Bool × Except String LessonContextFull :=
  let content_parts :=
    (if req.lesson_plan_text ≠ "" then [req.lesson_plan_text] else []) ++
      (match req.lesson_plan_pdf_base64 with
       | some p => if p ≠ "" then [p] else []
       | none => [])
  if content_parts.isEmpty then
    (false, Except.error "Must provide either lesson_plan_text or lesson_plan_pdf_base64")
  else
    match gen with
    | Except.error e => (true, Except.error e)
    | Except.ok text =>
      match parse text with
      | Except.ok ctx => (true, Except.ok ctx)
      | Except.error e => (true, Except.ok (fallbackLessonContext e))

/-- What the `/lesson/setup` boundary did with one request. -/
structure SetupTrace where
  analyzerInvoked : Bool
  genCallIssued : Bool
  result : HttpOutcome LessonContextFull
deriving DecidableEq, Repr

/-- The `/lesson/setup` boundary (api/main.py lines 494-536) including
FastAPI request validation: a body whose required `lesson_plan_text`
field is absent (`none`) is rejected with 422 before the endpoint body
runs; otherwise the endpoint invokes `analyze_lesson_plan` and converts
any exception it raises into `HTTPException(status_code=500)`. -/
def setup_lesson (rawText : Option String) (rawPdf : Option String)
    (gen : Except String String)
    (parse : String → Except String LessonContextFull) : SetupTrace :=
  match rawText with
  | none => ⟨false, false, HttpOutcome.clientError422⟩
  | some t =>
    let r := analyze_lesson_plan ⟨t, rawPdf⟩ gen parse
    match r.2 with
    | Except.ok ctx => ⟨true, r.1, HttpOutcome.ok200 ctx⟩
    | Except.error e => ⟨true, r.1, HttpOutcome.serverError500 e⟩

/-! ### Concrete fixtures used by witness theorems -/

/-- A concrete student profile. -/
def profileA : StudentProfile := ⟨"student-1", "Chipper", "visual"⟩

/-- A second concrete student profile. -/
def profileB : StudentProfile := ⟨"student-2", "Vex", "algorithmic"⟩

/-- A concrete generation environment: agent 1 answers, agent 2's call
raises. -/
def envW : GenEnv := fun a =>
  if a.id = "student-1" then
    Except.ok ⟨some (JVal.bool true), some (JVal.num (1/2)),
      some (JVal.str "I can picture it"), some (JVal.str "One half")⟩
  else Except.error "504 upstream timeout"

/-- A concrete TTS client that always succeeds. -/
def clientW : String → Except String String := fun t => Except.ok ("AUDIO:" ++ t)

/-- A parse function that always fails validation. -/
def parseNone : String → Option TeacherFeedbackOutput := fun _ => none

/-- A concrete lesson-analysis generation outcome. -/
def genLessonW : Except String String := Except.ok "analysis output"

/-- A concrete lesson-context parse function that always fails
validation. -/
def parseLessonW : String → Except String LessonContextFull :=
  fun _ => Except.error "bad schema"

/-- A generation output whose `thinking_process` key holds JSON null. -/
def dNullThink : GenDict :=
  ⟨some (JVal.bool true), some (JVal.num (1/2)), some JVal.null, none⟩

/-- A generation output whose confidence is out of range. -/
def dConfOor : GenDict :=
  ⟨some (JVal.bool true), some (JVal.num 5), some (JVal.str "I think so"), none⟩

/-! ### Helper lemmas -/

/-- A string append whose left part is non-empty is non-empty. -/
theorem append_ne_empty_left (a b : String) (ha : a.length ≠ 0) : a ++ b ≠ "" := by
  intro h
  have h2 := congrArg String.length h
  rw [String.length_append] at h2
  have h3 : ("" : String).length = 0 := rfl
  rw [h3] at h2
  omega

/-- The `mapM.loop` underlying `List.allSome`, on an all-`some` list. -/
theorem mapM_loop_map_some (l acc : List α) :
    List.mapM.loop id (l.map some) acc = some (acc.reverse ++ l) := by
  induction l generalizing acc with
  | nil => simp [List.mapM.loop]
  | cons a t ih =>
    simp only [List.map_cons, List.mapM.loop, Option.bind_eq_bind, id_eq, Option.some_bind,
      ih, List.reverse_cons, List.append_assoc, List.cons_append, List.nil_append]

/-- Gathering a list of already-`some` task results recovers the list. -/
theorem allSome_map_some (l : List α) : (l.map some).allSome = some l := by
  show List.mapM.loop id (l.map some) [] = some l
  rw [mapM_loop_map_some]
  rfl

/-- Shared shape lemma: under a covering completion order, the parallel
dispatch equals the in-registration-order map of per-agent responses. -/
theorem process_prompt_parallel_eq (agents : List StudentProfile) (env : GenEnv)
    (order : List ℕ) (hcover : ∀ j < agents.length, j ∈ order) :
    process_prompt_parallel agents env order =
      (agents.map (fun a => process_prompt a (env a))).map some := by
  unfold process_prompt_parallel
  exact gather_eq_map_some _ _ (by simpa using hcover)

/-! ### Claims -/

/-- C1: for every list of registered agents, every per-agent generation
environment and every completion order that completes all tasks,
`process_prompt_parallel` returns one response slot per registered
agent, and the i-th slot holds exactly the i-th agent's response —
registration order, independent of the completion order of the
concurrent per-agent calls. -/
theorem C1_parallel_order_invariant (agents : List StudentProfile) (env : GenEnv)
    (order : List ℕ) (hcover : ∀ j < agents.length, j ∈ order) :
    process_prompt_parallel agents env order =
      agents.map (fun a => some (process_prompt a (env a))) ∧
    ∀ i (h : i < agents.length),
      (process_prompt_parallel agents env order)[i]? =
        some (some (process_prompt (agents.get ⟨i, h⟩) (env (agents.get ⟨i, h⟩)))) := by
  have hmap0 := process_prompt_parallel_eq agents env order hcover
  have hmap : process_prompt_parallel agents env order =
      agents.map (fun a => some (process_prompt a (env a))) := by
    rw [hmap0, List.map_map]
    rfl
  refine ⟨hmap, ?_⟩
  intro i h
  rw [hmap, List.getElem?_map, List.getElem?_eq_getElem h]
  rfl

/-- C1 witness: two agents, completion order reversed (the second
agent's call finishes first); the output still lists agent 1's response
first. -/
theorem C1_witness :
    process_prompt_parallel [profileA, profileB] envW [1, 0] =
      [some (process_prompt profileA (envW profileA)),
        some (process_prompt profileB (envW profileB))] :=
  (C1_parallel_order_invariant [profileA, profileB] envW [1, 0] (by decide)).1

/-- C2: whenever the generation call inside `StudentAgent.process_prompt`
raises, the agent returns (never raises) the degraded response:
`would_raise_hand = false`, `confidence_score = 0`, `response = none`,
and a non-empty `thinking_process` embedding the error string. -/
theorem C2_degraded_on_generation_failure (profile : StudentProfile) (e : String) :
    process_prompt profile (Except.error e) =
      ⟨profile.id, profile.name, false, 0, "Error occurred: " ++ e, none, none⟩ ∧
    (process_prompt profile (Except.error e)).thinking_process ≠ "" := by
  refine ⟨rfl, ?_⟩
  show "Error occurred: " ++ e ≠ ""
  exact append_ne_empty_left _ _ (by decide)

/-- C3: for every roster (including the empty one), the `/ask` dispatch
never fails at the orchestration layer and the count in its summary is
exactly the number of returned responses whose `would_raise_hand` is
true; the empty roster yields the empty aggregate with a "0 out of 0"
summary rather than an error. -/
theorem C3_summary_count (agents : List StudentProfile) (env : GenEnv)
    (order : List ℕ) (hcover : ∀ j < agents.length, j ∈ order) :
    ∃ m : MultiStudentResponse,
      ask_students agents env order = Except.ok m ∧
      m.students.length = agents.length ∧
      m.summary = mkSummary
        ((m.students.filter (fun r => r.would_raise_hand)).length)
        m.students.length ∧
      (agents = [] → m.students = [] ∧ m.summary = mkSummary 0 0) := by
  have hmap := process_prompt_parallel_eq agents env order hcover
  refine ⟨⟨agents.map (fun a => process_prompt a (env a)),
      mkSummary (numRaisingHands (agents.map (fun a => process_prompt a (env a))))
        (agents.map (fun a => process_prompt a (env a))).length⟩, ?_, ?_, ?_, ?_⟩
  · unfold ask_students
    rw [hmap, allSome_map_some]
  · simp
  · rfl
  · intro h
    subst h
    exact ⟨rfl, rfl⟩

/-- C3 witness: the empty roster yields the empty aggregate and the
"0 out of 0" summary. -/
theorem C3_witness :
    ask_students [] envW [] =
      Except.ok ⟨[], "0 out of 0 students would raise their hand to answer this question."⟩ := by
  obtain ⟨m, hm, _, _, hnil⟩ := C3_summary_count [] envW [] (by decide)
  obtain ⟨hs, hsum⟩ := hnil rfl
  rcases m with ⟨ms, msum⟩
  simp only at hs hsum
  subst hs
  rw [hm, hsum]
  rfl

/-- C4 counterexample: when the Coaching Evaluator's upstream generation
call raises, `analyze_interaction` does NOT return a fallback verdict —
the exception escapes the evaluator boundary (the generation call sits
outside the `try` block), and the streamed `/ask` handler then emits an
`error` event instead of a `teacher_feedback` event, so the caller gets
no verdict. -/
theorem C4_counterexample :
    analyze_interaction (Except.error "503 upstream unavailable") parseNone =
      Except.error "503 upstream unavailable" ∧
    event_stream (analyze_interaction (Except.error "503 upstream unavailable") parseNone) =
      [StreamStep.yieldStudents, StreamStep.sleepStep,
        StreamStep.issueCoachingCall, StreamStep.yieldError] :=
  ⟨rfl, rfl⟩

/-- C4 (amended): the evaluator masks only output parse/validation
failures — whenever the generation call succeeds, `analyze_interaction`
returns some verdict (the neutral in-progress fallback when validation
fails) and never raises; but when the upstream generation call itself
fails, the exception propagates out of the evaluator and the streamed
`/ask` handler converts it into an `error` event in place of the
`teacher_feedback` event. -/
theorem C4_evaluator_fallback_amended (gen : Except String String)
    (parse : String → Option TeacherFeedbackOutput) :
    (∀ text, gen = Except.ok text →
      ∃ fb, analyze_interaction gen parse = Except.ok fb) ∧
    (∀ e, gen = Except.error e →
      analyze_interaction gen parse = Except.error e ∧
      event_stream (analyze_interaction gen parse) =
        [StreamStep.yieldStudents, StreamStep.sleepStep,
          StreamStep.issueCoachingCall, StreamStep.yieldError]) := by
  constructor
  · intro text hgen
    subst hgen
    simp only [analyze_interaction]
    cases parse text with
    | some out => exact ⟨_, rfl⟩
    | none => exact ⟨_, rfl⟩
  · intro e hgen
    subst hgen
    exact ⟨rfl, rfl⟩

/-- C4 amended witness: a succeeding generation call whose output fails
validation yields the fallback verdict rather than an exception. -/
theorem C4_amended_witness :
    ∃ fb, analyze_interaction (Except.ok "not JSON") parseNone = Except.ok fb :=
  (C4_evaluator_fallback_amended (Except.ok "not JSON") parseNone).1 "not JSON" rfl

/-- C5: in the streamed `/ask` path, for every coaching-call outcome the
generator trace emits the `students_response` event strictly before the
step that issues the Coaching Evaluator's upstream call — the coaching
step is sequenced after delivery of the aggregate, never concurrent with
it. -/
theorem C5_students_before_coaching (coach : Except String TeacherFeedback) :
    (event_stream coach).indexOf StreamStep.yieldStudents <
      (event_stream coach).indexOf StreamStep.issueCoachingCall ∧
    StreamStep.yieldStudents ∈ event_stream coach ∧
    StreamStep.issueCoachingCall ∈ event_stream coach := by
  cases coach <;>
    exact ⟨(by decide : (0 : ℕ) < 2), List.Mem.head _,
      List.Mem.tail _ (List.Mem.tail _ (List.Mem.head _))⟩

/-- C6: the voice-rendering path never touches the TTS client for a
response whose utterance is null or empty: `synthesize_speech` itself
returns `none` with zero client calls for empty or whitespace-only text,
and in the orchestrator's audio phase a response with a null or
blank utterance gets `audio_base64 = none` with zero TTS-client
invocations on its behalf. -/
theorem C6_audio_skip (client : String → Except String String)
    (responses : List StudentResponse) :
    (∀ text, pyStrip text = "" → synthesize_speech client text = (none, 0)) ∧
    (∀ i (h : i < responses.length),
      ((responses.get ⟨i, h⟩).response = none ∨
        (∃ s, (responses.get ⟨i, h⟩).response = some s ∧ pyStrip s = "")) →
      (attachAudio client responses)[i]? =
        some ({ responses.get ⟨i, h⟩ with audio_base64 := none }, 0)) := by
  have hsyn : ∀ text, pyStrip text = "" → synthesize_speech client text = (none, 0) := by
    intro text ht
    unfold synthesize_speech
    rw [if_pos (Or.inr ht)]
  refine ⟨hsyn, ?_⟩
  intro i h hresp
  have htask : audioTask client (responses.get ⟨i, h⟩) = (none, 0) := by
    rcases hresp with hnone | ⟨s, hs, htrim⟩
    · simp only [audioTask, hnone]
    · simp only [audioTask, hs]
      by_cases he : s = ""
      · rw [if_pos he]
      · rw [if_neg he]
        exact hsyn s htrim
  simp only [List.get_eq_getElem] at htask
  unfold attachAudio
  rw [List.getElem?_map, List.getElem?_eq_getElem h]
  simp only [Option.map_some', htask, List.get_eq_getElem]

/-- C6 witness: a null utterance and a whitespace-only utterance both
resolve to absent audio with zero TTS-client calls, and
`synthesize_speech` on blank text makes no client call. -/
theorem C6_witness :
    synthesize_speech clientW "  " = (none, 0) ∧
    (attachAudio clientW
        [⟨"student-1", "Chipper", false, 0, "thinking", none, none⟩,
          ⟨"student-2", "Vex", true, 1, "sure", some " ", none⟩])[0]? =
      some (⟨"student-1", "Chipper", false, 0, "thinking", none, none⟩, 0) ∧
    (attachAudio clientW
        [⟨"student-1", "Chipper", false, 0, "thinking", none, none⟩,
          ⟨"student-2", "Vex", true, 1, "sure", some " ", none⟩])[1]? =
      some (⟨"student-2", "Vex", true, 1, "sure", some " ", none⟩, 0) := by
  refine ⟨?_, ?_, ?_⟩
  · exact (C6_audio_skip clientW []).1 "  " (by decide)
  · exact (C6_audio_skip clientW
      [⟨"student-1", "Chipper", false, 0, "thinking", none, none⟩,
        ⟨"student-2", "Vex", true, 1, "sure", some " ", none⟩]).2 0 (by decide)
      (Or.inl rfl)
  · exact (C6_audio_skip clientW
      [⟨"student-1", "Chipper", false, 0, "thinking", none, none⟩,
        ⟨"student-2", "Vex", true, 1, "sure", some " ", none⟩]).2 1 (by decide)
      (Or.inr ⟨" ", rfl, by decide⟩)

/-- C7: when parsing/validation of the summarizer's generation output
fails, `generate_lesson_summary` raises an explicit error embedding the
diagnostic and `/lesson/end` surfaces it as an HTTP 500 server error —
it does not return a fallback value. -/
theorem C7_summary_failure_surfaces (text pe : String)
    (parse : String → Except String EndLessonResponse)
    (hparse : parse text = Except.error pe) :
    generate_lesson_summary (Except.ok text) parse =
      Except.error ("Failed to parse lesson summary: " ++ pe ++ "\nResponse: " ++ text) ∧
    end_lesson (Except.ok text) parse =
      HttpOutcome.serverError500
        ("Failed to parse lesson summary: " ++ pe ++ "\nResponse: " ++ text) := by
  have hgen : generate_lesson_summary (Except.ok text) parse =
      Except.error ("Failed to parse lesson summary: " ++ pe ++ "\nResponse: " ++ text) := by
    simp only [generate_lesson_summary]
    rw [hparse]
  refine ⟨hgen, ?_⟩
  unfold end_lesson
  rw [hgen]

/-- C7 witness: a concrete summarizer output that fails validation is
surfaced by `/lesson/end` as a 500 with the explicit parse-failure
message. -/
theorem C7_witness :
    end_lesson (Except.ok "garbage") (fun _ => Except.error "missing key lesson_summary") =
      HttpOutcome.serverError500
        ("Failed to parse lesson summary: missing key lesson_summary\nResponse: garbage") :=
  (C7_summary_failure_surfaces "garbage" "missing key lesson_summary"
    (fun _ => Except.error "missing key lesson_summary") rfl).2

/-- When at least one input field is truthy, `analyze_lesson_plan`
reaches and issues its generation call. -/
theorem analyze_lesson_plan_issues_gen (req : LessonSetupRequest)
    (gen : Except String String)
    (parse : String → Except String LessonContextFull)
    (h : req.lesson_plan_text ≠ "" ∨
      ∃ p, req.lesson_plan_pdf_base64 = some p ∧ p ≠ "") :
    (analyze_lesson_plan req gen parse).1 = true := by
  simp only [analyze_lesson_plan]
  have hne : ¬ ((if req.lesson_plan_text ≠ "" then [req.lesson_plan_text] else []) ++
      (match req.lesson_plan_pdf_base64 with
       | some p => if p ≠ "" then [p] else []
       | none => ([] : List String))).isEmpty = true := by
    rw [List.isEmpty_iff]
    intro hnil
    rw [List.append_eq_nil] at hnil
    rcases h with ht | ⟨p, hp, hpne⟩
    · rw [if_pos ht] at hnil
      exact absurd hnil.1 (by simp)
    · rw [hp] at hnil
      have h2 := hnil.2
      simp [hpne] at h2
  rw [if_neg hne]
  cases gen with
  | error e => rfl
  | ok text =>
    cases hpt : parse text with
    | ok ctx => simp [hpt]
    | error e => simp [hpt]

/-- C8 counterexample: a `/lesson/setup` request with `lesson_plan_text`
present but empty and no PDF is NOT rejected at the boundary with a
client error: the lesson analyzer (a core component) is invoked, raises
a `ValueError` before the generation call, and the endpoint surfaces it
as a 500 server error. -/
theorem C8_counterexample :
    setup_lesson (some "") none genLessonW parseLessonW =
      ⟨true, false, HttpOutcome.serverError500
        "Must provide either lesson_plan_text or lesson_plan_pdf_base64"⟩ := by
  decide

/-- C8 (amended): a request whose required `lesson_plan_text` field is
absent is rejected with a 422 client error by request validation before
the analyzer runs; but a request with both fields present-and-empty (or
the PDF absent) reaches the analyzer, which raises before issuing its
generation call, and the endpoint surfaces that as a 500 server error —
not a client error; a request with at least one non-empty field invokes
the analyzer and its generation call. -/
theorem C8_setup_validation_amended (rawPdf : Option String) (t : String)
    (pdf : Option String) (gen : Except String String)
    (parse : String → Except String LessonContextFull) :
    setup_lesson none rawPdf gen parse =
      ⟨false, false, HttpOutcome.clientError422⟩ ∧
    ((pdf = none ∨ pdf = some "") →
      setup_lesson (some "") pdf gen parse =
        ⟨true, false, HttpOutcome.serverError500
          "Must provide either lesson_plan_text or lesson_plan_pdf_base64"⟩) ∧
    ((t ≠ "" ∨ ∃ p, pdf = some p ∧ p ≠ "") →
      (setup_lesson (some t) pdf gen parse).analyzerInvoked = true ∧
      (setup_lesson (some t) pdf gen parse).genCallIssued = true) := by
  refine ⟨rfl, ?_, ?_⟩
  · rintro (hp | hp) <;> subst hp <;> rfl
  · intro h
    have hg := analyze_lesson_plan_issues_gen ⟨t, pdf⟩ gen parse h
    simp only [setup_lesson]
    cases hr : (analyze_lesson_plan ⟨t, pdf⟩ gen parse).2 with
    | ok ctx => exact ⟨rfl, hg⟩
    | error e => exact ⟨rfl, hg⟩

/-- C8 amended witness: the 422 rejection of a missing field, and the
500 server-error path of an empty field. -/
theorem C8_amended_witness :
    setup_lesson none none genLessonW parseLessonW =
      ⟨false, false, HttpOutcome.clientError422⟩ ∧
    setup_lesson (some "") none genLessonW parseLessonW =
      ⟨true, false, HttpOutcome.serverError500
        "Must provide either lesson_plan_text or lesson_plan_pdf_base64"⟩ ∧
    (setup_lesson (some "3rd grade fractions lesson") none genLessonW parseLessonW).genCallIssued
      = true :=
  ⟨(C8_setup_validation_amended none "x" none genLessonW parseLessonW).1,
    (C8_setup_validation_amended none "x" none genLessonW parseLessonW).2.1 (Or.inl rfl),
    ((C8_setup_validation_amended none "3rd grade fractions lesson" none genLessonW
      parseLessonW).2.2 (Or.inl (by decide))).2⟩

/-- C9: the style-guidance function is pure and total — for every
learning-style string and every lesson context it returns a non-empty
guidance string, and for every style outside
{algorithmic, visual, struggling} it returns the neutral
"Respond authentically based on your profile" fallback. -/
theorem C9_style_guidance_total (learning_style : String) (ctx : LessonContext) :
    get_learning_style_guidance learning_style ctx ≠ "" ∧
    (learning_style ∉ ["algorithmic", "visual", "struggling"] →
      get_learning_style_guidance learning_style ctx =
        "Respond authentically based on your profile") := by
  constructor
  · simp only [get_learning_style_guidance]
    split
    · split <;> decide
    · split
      · split <;> decide
      · split
        · split <;> decide
        · decide
  · intro h
    simp only [List.mem_cons, List.not_mem_nil, or_false, not_or] at h
    obtain ⟨h1, h2, h3⟩ := h
    simp only [get_learning_style_guidance]
    rw [if_neg h1, if_neg h2, if_neg h3]

/-- C9 witness: an unrecognized learning style gets the neutral
fallback. -/
theorem C9_witness :
    get_learning_style_guidance "kinesthetic" ⟨"5th grade", "Algebra"⟩ =
      "Respond authentically based on your profile" :=
  (C9_style_guidance_total "kinesthetic" ⟨"5th grade", "Algebra"⟩).2 (by decide)

/-- Pydantic validation never accepts a JSON-null `thinking_process`. -/
theorem validate_think_null_err (sid sname : String) (wrh conf resp : JVal) :
    ∃ e, validateStudentResponse sid sname wrh conf JVal.null resp =
      Except.error e := by
  unfold validateStudentResponse
  split <;> try exact ⟨_, rfl⟩
  split <;> try exact ⟨_, rfl⟩
  split <;> exact ⟨_, rfl⟩

/-- Pydantic validation never accepts an out-of-range confidence. -/
theorem validate_conf_oor_err (sid sname : String) (wrh think resp : JVal)
    (q : ℚ) (hq : ¬(0 ≤ q ∧ q ≤ 1)) :
    ∃ e, validateStudentResponse sid sname wrh (JVal.num q) think resp =
      Except.error e := by
  unfold validateStudentResponse
  split <;> try exact ⟨_, rfl⟩
  refine ⟨"validation error: confidence_score out of range", ?_⟩
  simp only [if_neg hq]

/-- Any response pydantic validation accepts has its confidence within
`[0, 1]`. -/
theorem validate_conf_range (sid sname : String) (wrh conf think resp : JVal)
    (r : StudentResponse)
    (h : validateStudentResponse sid sname wrh conf think resp = Except.ok r) :
    0 ≤ r.confidence_score ∧ r.confidence_score ≤ 1 := by
  unfold validateStudentResponse at h
  split at h <;> try exact Except.noConfusion h
  split at h <;> try exact Except.noConfusion h
  split at h
  · rename_i hq
    split at h <;> try exact Except.noConfusion h
    split at h <;> try exact Except.noConfusion h
    all_goals
      injection h with h2
      subst h2
      exact hq
  · exact Except.noConfusion h

/-- C10: every `StudentResponse` leaving `process_prompt` — success or
fallback path — has `confidence_score ∈ [0,1]`; a generation result
whose `thinking_process` is JSON null, or whose confidence is out of
range, fails pydantic validation inside the `try` block and collapses to
the degraded fallback. -/
theorem C10_response_invariants (profile : StudentProfile)
    (gen : Except String GenDict) (d : GenDict) (q : ℚ) :
    (0 ≤ (process_prompt profile gen).confidence_score ∧
      (process_prompt profile gen).confidence_score ≤ 1) ∧
    (d.thinking_process = some JVal.null →
      ∃ e, process_prompt profile (Except.ok d) = degradedResponse profile e) ∧
    (d.confidence_score = some (JVal.num q) → ¬(0 ≤ q ∧ q ≤ 1) →
      ∃ e, process_prompt profile (Except.ok d) = degradedResponse profile e) := by
  refine ⟨?_, ?_, ?_⟩
  · cases gen with
    | error e =>
      constructor <;> norm_num [process_prompt, degradedResponse]
    | ok d' =>
      simp only [process_prompt]
      cases hv : validateStudentResponse profile.id profile.name
          (pyGet d'.would_raise_hand (JVal.bool false))
          (pyGet d'.confidence_score (JVal.num 0))
          (pyGet d'.thinking_process (JVal.str ""))
          (pyGet d'.response JVal.null) with
      | ok r => exact validate_conf_range _ _ _ _ _ _ _ hv
      | error e => constructor <;> norm_num [degradedResponse]
  · intro h
    have hth : pyGet d.thinking_process (JVal.str "") = JVal.null := by
      rw [h]
      rfl
    obtain ⟨e, he⟩ := validate_think_null_err profile.id profile.name
      (pyGet d.would_raise_hand (JVal.bool false))
      (pyGet d.confidence_score (JVal.num 0))
      (pyGet d.response JVal.null)
    refine ⟨e, ?_⟩
    simp only [process_prompt, hth, he]
  · intro h hq
    have hc : pyGet d.confidence_score (JVal.num 0) = JVal.num q := by
      rw [h]
      rfl
    obtain ⟨e, he⟩ := validate_conf_oor_err profile.id profile.name
      (pyGet d.would_raise_hand (JVal.bool false))
      (pyGet d.thinking_process (JVal.str ""))
      (pyGet d.response JVal.null) q hq
    refine ⟨e, ?_⟩
    simp only [process_prompt, hc, he]

/-- C10 witness: a null-reasoning output and an out-of-range-confidence
output both collapse to the degraded fallback, whose confidence is in
range. -/
theorem C10_witness :
    (0 ≤ (process_prompt profileA (Except.ok dNullThink)).confidence_score ∧
      (process_prompt profileA (Except.ok dNullThink)).confidence_score ≤ 1) ∧
    (∃ e, process_prompt profileA (Except.ok dNullThink) =
      degradedResponse profileA e) ∧
    (∃ e, process_prompt profileA (Except.ok dConfOor) =
      degradedResponse profileA e) :=
  ⟨(C10_response_invariants profileA (Except.ok dNullThink) dNullThink 0).1,
    (C10_response_invariants profileA (Except.ok dNullThink) dNullThink 0).2.1 rfl,
    (C10_response_invariants profileA (Except.ok dConfOor) dConfOor 5).2.2 rfl
      (by norm_num)⟩
